import Mathlib

/-!
A shallow embedding of the call-analysis dashboard frontend
(pages: home, analytics, reports list, report detail, query chat;
components: ReportCard, NavBar) together with proofs about the
properties its specification states.

Strings are modelled as `List Char` internally (wrapped as `String`
at the interfaces); JavaScript regex replacements are embedded as
explicit character-list transformations; asynchronous fetch results
are modelled as `Except Unit α`; numeric scores from JSON are `ℚ`.
-/

namespace Dashboard

/-- JS `\d` character class (ASCII digits). -/
def isDigitCh (c : Char) : Bool := c.isDigit

/-- JS `\w` character class: ASCII letters, digits, underscore. -/
def isWordCh (c : Char) : Bool := c.isAlphanum || c = '_'

/-- Does the list start with the pattern `\d{8}_\d{6}_` (8 digits,
underscore, 6 digits, underscore), as in the regex
`/^\d{8}_\d{6}_/` of every `formatCallTitle`? -/
def hasDateTimePrefix (l : List Char) : Bool :=
  decide (16 ≤ l.length)
    && (List.range 8).all (fun i => isDigitCh (l.getD i ' '))
    && decide (l.getD 8 ' ' = '_')
    && (List.range 6).all (fun i => isDigitCh (l.getD (9 + i) ' '))
    && decide (l.getD 15 ' ' = '_')

/-- `.replace(/^\d{8}_\d{6}_/, "")`: strip a leading date-time
prefix when present. -/
def stripDateTimePrefix (l : List Char) : List Char :=
  if hasDateTimePrefix l then l.drop 16 else l

/-- `.replace(/\.\w+$/, "")` (home page and ReportCard versions):
the unique match of `\.\w+$` is a final dot followed by a nonempty
run of word characters reaching the end of the string; stripping it
removes that suffix. -/
def stripExtWord (l : List Char) : List Char :=
  let ext := l.reverse.takeWhile isWordCh
  if ext ≠ [] && decide (l.getD (l.length - ext.length - 1) ' ' = '.')
      && decide (ext.length < l.length) then
    l.take (l.length - ext.length - 1)
  else l

/-- `.replace(/\.[^.]+$/, "")` (report detail version): the unique
match of `\.[^.]+$` is the last dot of the string followed by a
nonempty dot-free run reaching the end; stripping it removes that
suffix. -/
def stripExtNonDot (l : List Char) : List Char :=
  let after := l.reverse.takeWhile (fun c => c ≠ '.')
  if after ≠ [] && decide (after.length < l.length) then
    l.take (l.length - after.length - 1)
  else l

/-- `.replace(/_/g, " ")` (home page and ReportCard versions). -/
def replaceUnderscores (l : List Char) : List Char :=
  l.map (fun c => if c = '_' then ' ' else c)

/-- `.replace(/[_-]/g, " ")` (report detail version). -/
def replaceSeparators (l : List Char) : List Char :=
  l.map (fun c => if c = '_' || c = '-' then ' ' else c)

/-- JS test `/^\d+(\.\d+)?$/.test(name)`: one or more digits,
optionally followed by a dot and one or more digits. -/
def isNumericName (l : List Char) : Bool :=
  let intPart := l.takeWhile isDigitCh
  intPart ≠ [] &&
    (let rest := l.drop intPart.length
     rest.isEmpty ||
       (decide (rest.headD ' ' = '.') && !(rest.drop 1).isEmpty
         && (rest.drop 1).all isDigitCh))

/-- `formatCallTitle` as written in `frontend/app/page.tsx`
(the home page): strip the date-time prefix, strip a `\.\w+$`
extension, replace underscores with spaces; an all-numeric
remainder becomes a truncated `Call Recording — …` placeholder,
an empty remainder becomes `"Call Recording"`. -/
def formatCallTitleHome (filename : String) : String :=
  let name :=
    replaceUnderscores (stripExtWord (stripDateTimePrefix filename.toList))
  if isNumericName name then
    "Call Recording — " ++ String.mk (name.take 8) ++ "..."
  else if name.isEmpty then "Call Recording"
  else String.mk name

/-- `formatCallTitle` as written in `components/NavBar.tsx`
(the `ReportCard` component); the source text coincides with the
home page version. -/
def formatCallTitleReportCard (filename : String) : String :=
  let name :=
    replaceUnderscores (stripExtWord (stripDateTimePrefix filename.toList))
  if isNumericName name then
    "Call Recording — " ++ String.mk (name.take 8) ++ "..."
  else if name.isEmpty then "Call Recording"
  else String.mk name

/-- `formatCallTitle` as written on the report detail page: strip
the date-time prefix, strip a `\.[^.]+$` extension, replace both
underscores and hyphens with spaces; no numeric placeholder and no
empty fallback. -/
def formatCallTitleDetail (filename : String) : String :=
  String.mk
    (replaceSeparators (stripExtNonDot (stripDateTimePrefix filename.toList)))

/-! ## Data model

Plain data-transfer shapes deserialized from the external API.
Only the fields the pages actually read are modelled; optional
fields are `Option`, numeric JSON fields are `ℚ`. -/

/-- A `Report` payload as consumed by the pages: `id`, `filename`,
`timestamp`, `risk_score`, `risk_level`, `violations`. -/
structure Report where
  id : Option String
  filename : Option String
  timestamp : Option String
  risk_score : Option ℚ
  risk_level : Option String
  violations : Option (List String)
  deriving Repr, DecidableEq

/-- An `AnalyticsSummary` payload (the scalar fields the home and
analytics pages read). -/
structure AnalyticsSummary where
  report_count : Nat
  avg_compliance_score : ℚ
  avg_risk_score : ℚ
  total_violations : Nat
  deriving Repr, DecidableEq

/-- An `AnalyticsTrends` payload: ordered per-call data points
`(compliance_score, risk_score, violation_count)`. -/
structure AnalyticsTrends where
  data_points : List (ℚ × ℚ × Nat)
  deriving Repr, DecidableEq

/-- Outcome of an asynchronous fetch: either the parsed payload or
a rejection. -/
abbrev Fetch (α : Type) := Except Unit α

/-! ## Risk bucketing -/

/-- JS `x || d` for a possibly-absent value whose only falsy
inhabitant we model is absence itself. -/
def orDefault {α : Type} (x : Option α) (d : α) : α := x.getD d

/-- The inline bucketing on the home page's recent-report cards:
`riskScore >= 65 ? "high" : riskScore >= 35 ? "medium" : "low"`. -/
def homeRecentBucket (x : ℚ) : String :=
  if 65 ≤ x then "high" else if 35 ≤ x then "medium" else "low"

/-- The inline bucketing in the `ReportCard` component:
`riskScore >= 65 ? "high" : riskScore >= 35 ? "medium" : "low"`. -/
def reportCardBucket (x : ℚ) : String :=
  if 65 ≤ x then "high" else if 35 ≤ x then "medium" else "low"

/-- JS `Math.round`: round half toward positive infinity. -/
def jsRound (q : ℚ) : ℤ := ⌊q + 1/2⌋

/-- The home page's `AVG. RISK SCORE` value:
`summary ? Math.round(100 - summary.avg_risk_score) : 0`. -/
def homeAvgRiskScore (summary : Option AnalyticsSummary) : ℤ :=
  match summary with
  | some s => jsRound (100 - s.avg_risk_score)
  | none => 0

/-- The home page's subtitle for the `AVG. RISK SCORE` card:
`avgRiskScore <= 35 ? "Low risk" : avgRiskScore <= 65 ? "Medium risk" : "High risk"`. -/
def riskLabel (v : ℤ) : String :=
  if v ≤ 35 then "Low risk" else if v ≤ 65 then "Medium risk" else "High risk"

/-- Rank of a home-page risk subtitle, for stating monotonicity
(lower rank = lower risk). -/
def riskLabelRank (s : String) : Nat :=
  if s = "Low risk" then 0 else if s = "Medium risk" then 1 else 2

/-! ## Home page (`frontend/app/page.tsx`)

State variables of the `Home` component. The component has no
error state variable: its `catch` branch only logs. -/

/-- The `useState` variables of the `Home` component. -/
structure HomeState where
  reports : List Report
  summary : Option AnalyticsSummary
  loading : Bool
  isAnalyzing : Bool
  deriving Repr, DecidableEq

/-- Initial home state: `[]`, `null`, `true`, `false`. -/
def homeInit : HomeState :=
  { reports := [], summary := none, loading := true, isAnalyzing := false }

/-- Effect of the home page's `loadData` given the two fetch
outcomes: `Promise.all` resolves only when both resolve, in which
case both raw-result variables are set; any rejection reaches the
`catch`, which only logs; `finally` stops loading. -/
def homeLoadData (s : HomeState) (r : Fetch (List Report))
    (m : Fetch AnalyticsSummary) : HomeState :=
  match r, m with
  | .ok reportsData, .ok summaryData =>
      { s with reports := reportsData, summary := some summaryData,
               loading := false }
  | _, _ => { s with loading := false }

/-- What the body of the home page renders below the stat cards:
recent report cards, the empty-state panel, or nothing while
loading. The JSX has no error branch. -/
inductive HomeBody where
  | loadingBlank
  | recentReports
  | emptyState
  deriving Repr, DecidableEq

/-- `!loading && reports.length > 0` renders the recent cards;
`!loading && reports.length === 0` renders the empty state. -/
def homeBody (s : HomeState) : HomeBody :=
  if s.loading then .loadingBlank
  else if s.reports.length = 0 then .emptyState
  else .recentReports

/-- The per-card risk level on the home page:
`report.risk_level || (riskScore >= 65 ? … )` with
`riskScore = report.risk_score || 0`. -/
def homeCardLevel (report : Report) : String :=
  orDefault report.risk_level (homeRecentBucket (orDefault report.risk_score 0))

/-- The risk level shown by the `ReportCard` component, same
shape as on the home page. -/
def reportCardLevel (report : Report) : String :=
  orDefault report.risk_level (reportCardBucket (orDefault report.risk_score 0))

/-! ## Analytics page -/

/-- The `useState` variables of the `AnalyticsPage` component. -/
structure AnalyticsState where
  summary : Option AnalyticsSummary
  trends : Option AnalyticsTrends
  loading : Bool
  error : Option String
  exporting : Bool
  exportMsg : Option String
  deriving Repr, DecidableEq

/-- Initial analytics state: `null`, `null`, `true`, `null`,
`false`, `null`. -/
def analyticsInit : AnalyticsState :=
  { summary := none, trends := none, loading := true, error := none,
    exporting := false, exportMsg := none }

/-- Effect of the analytics page's `loadData` given the two fetch
outcomes. `fetchAnalyticsSummary` may resolve with a missing
payload (the render guards on `!summary`), so its payload is an
`Option`. On any rejection the `catch` sets the error message and
`finally` stops loading. -/
def analyticsLoadData (s : AnalyticsState)
    (m : Fetch (Option AnalyticsSummary))
    (t : Fetch (Option AnalyticsTrends)) : AnalyticsState :=
  match m, t with
  | .ok summaryData, .ok trendsData =>
      { s with summary := summaryData, trends := trendsData,
               loading := false }
  | _, _ =>
      { s with error := some "Failed to load analytics data",
               loading := false }

/-- `error || !summary` guards the analytics error panel, after
the loading guard. -/
def analyticsShowsError (s : AnalyticsState) : Bool :=
  !s.loading && (s.error.isSome || s.summary.isNone)

/-! ### CSV export timeline

`handleExportCSV` sets the message after `exportCSV` settles and
schedules `setTimeout(() => setExportMsg(null), 4000)` without
ever cancelling a previously scheduled timer. We model one run of
the component as a list of export attempts, each a triple
`(start, done, msg)`: at time `start` the handler runs
`setExportMsg(null)`, at time `done` the awaited `exportCSV` has
settled and the handler runs `setExportMsg(msg)` and schedules a
clear at `done + 4000`. The value of `exportMsg` at time `t` is
the payload of the latest event at or before `t` (events of later
attempts win ties, matching the event-loop order in which their
callbacks were queued). -/

/-- One export attempt: handler start time, settle time, and the
message it sets (`"CSV downloaded successfully!"` or the error
text). -/
structure ExportAttempt where
  start : ℕ
  done : ℕ
  msg : String
  deriving Repr, DecidableEq

/-- The three `setExportMsg` events one attempt contributes:
clear on start, set on settle, timer clear 4000 ms later. -/
def attemptEvents (a : ExportAttempt) : List (ℕ × Option String) :=
  [(a.start, none), (a.done, some a.msg), (a.done + 4000, none)]

/-- Choose between the current latest event `acc` and a candidate
event `e`: `e` wins when it happened at or before `t` and no
strictly later event is already held (on a time tie the candidate
— queued later — wins). -/
def laterEvent (t : ℕ) (acc : Option (ℕ × Option String))
    (e : ℕ × Option String) : Option (ℕ × Option String) :=
  if e.1 ≤ t then
    match acc with
    | none => some e
    | some a => if a.1 ≤ e.1 then some e else some a
  else acc

/-- The latest event at or before `t` (prefer larger times; on a
tie, the event later in the list). -/
def lastEventAt (t : ℕ) (events : List (ℕ × Option String)) :
    Option (ℕ × Option String) :=
  events.foldl (laterEvent t) none

/-- The value of the `exportMsg` state variable at time `t` during
a run consisting of the given attempts. -/
def exportMsgAt (attempts : List ExportAttempt) (t : ℕ) : Option String :=
  match lastEventAt t (attempts.map attemptEvents).flatten with
  | some e => e.2
  | none => none

/-! ## Reports list page (`frontend/app/reports/page.tsx`) -/

/-- The `useState` variables of the `ReportsPage` component. -/
structure ReportsState where
  reports : List Report
  loading : Bool
  error : Option String
  deriving Repr, DecidableEq

/-- Initial reports-page state: `[]`, `true`, `null`. -/
def reportsInit : ReportsState :=
  { reports := [], loading := true, error := none }

/-- Effect of the reports page's `loadReports` given the fetch
outcome: store the list on success, set the error message on
rejection, stop loading either way. -/
def loadReports (s : ReportsState) (r : Fetch (List Report)) : ReportsState :=
  match r with
  | .ok data => { s with reports := data, loading := false }
  | .error _ =>
      { s with error := some "Failed to load reports", loading := false }

/-- The reports page renders its error panel whenever `error` is
set (independently of the loading guard). -/
def reportsShowsError (s : ReportsState) : Bool :=
  s.error.isSome

/-! ## Report detail page -/

/-- The `useState` variables of the `ReportDetailPage` component. -/
structure DetailState where
  report : Option Report
  loading : Bool
  error : Option String
  showCallerHistory : Bool
  callerHistory : List Report
  loadingHistory : Bool
  deriving Repr, DecidableEq

/-- Initial detail-page state: `null`, `true`, `null`, `false`,
`[]`, `false`. -/
def detailInit : DetailState :=
  { report := none, loading := true, error := none,
    showCallerHistory := false, callerHistory := [], loadingHistory := false }

/-- Effect of the detail page's `loadReport`: `fetchReport` may
resolve with a missing payload, in which case the handler throws
`"Report not found"` into its own `catch`; the `catch` sets the
error message; `finally` stops loading. -/
def loadReport (s : DetailState) (r : Fetch (Option Report)) : DetailState :=
  match r with
  | .ok (some data) => { s with report := some data, loading := false }
  | .ok none =>
      { s with error := some "Failed to load report", loading := false }
  | .error _ =>
      { s with error := some "Failed to load report", loading := false }

/-- `error || !report` guards the detail page's error panel, after
the loading guard. -/
def detailShowsError (s : DetailState) : Bool :=
  !s.loading && (s.error.isSome || s.report.isNone)

/-- Effect of `handleShowCallerHistory` given the caller-history
fetch outcome: a no-op without a loaded report; otherwise it shows
the panel, stores the history on success, only logs on rejection,
and stops the history loading flag. -/
def handleShowCallerHistory (s : DetailState)
    (r : Fetch (List Report)) : DetailState :=
  match s.report with
  | none => s
  | some _ =>
      match r with
      | .ok history =>
          { s with showCallerHistory := true, callerHistory := history,
                   loadingHistory := false }
      | .error _ =>
          { s with showCallerHistory := true, loadingHistory := false }

/-- What the caller-history panel shows when visible. -/
inductive HistoryPanel where
  | hidden
  | loadingMsg
  | noPreviousCalls
  | historyList (calls : List Report)
  deriving Repr, DecidableEq

/-- The panel renders `Loading...` while `loadingHistory`, the
`No previous calls found` empty state when the stored history is
empty, and the list otherwise. -/
def historyPanel (s : DetailState) : HistoryPanel :=
  if !s.showCallerHistory then .hidden
  else if s.loadingHistory then .loadingMsg
  else if s.callerHistory.length = 0 then .noPreviousCalls
  else .historyList s.callerHistory

/-! ## Query chat page (`QueryPage`) -/

/-- Message role in the chat transcript. -/
inductive Role where
  | user
  | bot
  deriving Repr, DecidableEq

/-- A chat transcript entry. The clock-derived `id` and
`timestamp` fields carry no logic and are not modelled; the
optional `dataContext` annotation is kept as the pair
`(total_calls, data_source)`. -/
structure ChatMessage where
  role : Role
  content : String
  dataContext : Option (Nat × String)
  deriving Repr, DecidableEq

/-- A `QueryResponse` payload: `answer` and `data_context`, either
of which may be missing in the parsed JSON. -/
structure QueryResponse where
  answer : Option String
  data_context : Option (Nat × String)
  deriving Repr, DecidableEq

/-- The `useState` variables of `QueryPage` that `handleSend`
touches. -/
structure ChatState where
  messages : List ChatMessage
  input : String
  loading : Bool
  deriving Repr, DecidableEq

/-- The canned message appended when the request succeeds but the
response or its `answer` is falsy. -/
def cannedNoAnswer : String :=
  "I wasn't able to process that question. Please try again."

/-- The canned apology appended when the request throws. -/
def cannedApology : String :=
  "Something went wrong. Please make sure the backend is running and try again."

/-- JS `String.prototype.trim`: drop leading and trailing
whitespace. -/
def jsTrim (s : String) : String :=
  String.mk
    (((s.toList.dropWhile Char.isWhitespace).reverse.dropWhile
        Char.isWhitespace).reverse)

/-- `(question || input)`: a missing or empty `question` argument
falls back to the input box text. -/
def effectiveQuery (question : Option String) (s : ChatState) : String :=
  match question with
  | some q => if q = "" then s.input else q
  | none => s.input

/-- The bot turn built in the `try`/`catch` of `handleSend`:
`response?.answer || cannedNoAnswer` on success (`sendQuery` may
resolve with a missing payload), the canned apology on
rejection. -/
def botTurn (result : Fetch (Option QueryResponse)) : ChatMessage :=
  match result with
  | .ok response =>
      { role := .bot,
        content :=
          match response with
          | some resp =>
              match resp.answer with
              | some a => if a = "" then cannedNoAnswer else a
              | none => cannedNoAnswer
          | none => cannedNoAnswer,
        dataContext := response.bind (fun resp => resp.data_context) }
  | .error _ => { role := .bot, content := cannedApology, dataContext := none }

/-- Effect of one `handleSend` call given the `sendQuery` outcome:
guard `if (!q || loading) return`; otherwise append the user turn,
clear the input, and once the request settles append exactly one
bot turn; `finally` resets loading. -/
def handleSend (question : Option String)
    (result : Fetch (Option QueryResponse)) (s : ChatState) : ChatState :=
  let q := jsTrim (effectiveQuery question s)
  if q = "" || s.loading then s
  else
    { messages :=
        s.messages ++ [{ role := .user, content := q, dataContext := none },
                       botTurn result],
      input := "",
      loading := false }

/-! ## Theorems -/

/-- Helper: the home-page subtitle rank is monotone in the
bucketed value. -/
theorem riskLabelRank_mono {v w : ℤ} (h : v ≤ w) :
    riskLabelRank (riskLabel v) ≤ riskLabelRank (riskLabel w) := by
  unfold riskLabel
  split_ifs <;> first | decide | omega

/-- C1: false as stated. The claim requires every bucketing site
to assign medium at a score of 35 and high at 65, but the home
page's `AVG. RISK SCORE` subtitle uses `<=` comparisons: it
assigns `"Low risk"` at 35 (not medium) and `"Medium risk"` at 65
(not high). -/
theorem riskLabel_boundary_mismatch :
    riskLabel 35 = "Low risk" ∧ riskLabel 65 = "Medium risk" := by
  constructor <;> rfl

/-- C1 (amended): the recent-report cards on the home page and
the `ReportCard` component bucket a score `s` as low when
`s < 35`, medium when `35 ≤ s < 65`, and high when `s ≥ 65`;
the home page's `AVG. RISK SCORE` subtitle instead buckets its
displayed value `v` as low when `v ≤ 35`, medium when
`35 < v ≤ 65`, and high when `v > 65`. -/
theorem risk_bucketing_amended (x : ℚ) (v : ℤ) :
    (x < 35 → homeRecentBucket x = "low" ∧ reportCardBucket x = "low") ∧
    (35 ≤ x → x < 65 →
      homeRecentBucket x = "medium" ∧ reportCardBucket x = "medium") ∧
    (65 ≤ x → homeRecentBucket x = "high" ∧ reportCardBucket x = "high") ∧
    (v ≤ 35 → riskLabel v = "Low risk") ∧
    (35 < v → v ≤ 65 → riskLabel v = "Medium risk") ∧
    (65 < v → riskLabel v = "High risk") := by
  unfold homeRecentBucket reportCardBucket riskLabel
  refine ⟨?_, ?_, ?_, ?_, ?_, ?_⟩ <;> intros <;> split_ifs <;>
    first
      | exact ⟨rfl, rfl⟩
      | rfl
      | linarith

/-- C1 (amended) witness at score 10 and displayed value 40. -/
theorem risk_bucketing_amended_witness :
    homeRecentBucket 10 = "low" ∧ riskLabel 40 = "Medium risk" :=
  ⟨((risk_bucketing_amended 10 40).1 (by norm_num)).1,
   (risk_bucketing_amended 10 40).2.2.2.2.1 (by norm_num) (by norm_num)⟩

/-- C7: false as stated. The report detail page's
`formatCallTitle` and the home page's `formatCallTitle` disagree:
on the all-numeric filename `"482913"` the home version returns
the truncated placeholder while the detail version returns the
digits unchanged. -/
theorem formatCallTitle_versions_differ :
    formatCallTitleHome "482913" = "Call Recording — 482913..." ∧
    formatCallTitleDetail "482913" = "482913" ∧
    formatCallTitleHome "482913" ≠ formatCallTitleDetail "482913" := by
  refine ⟨by decide, by decide, by decide⟩

/-- C7 (amended): the home page's and the `ReportCard`
component's `formatCallTitle` agree on every filename (their
source text coincides); the report detail page's version performs
a different derivation (it also replaces hyphens, strips any
non-dot extension, and keeps numeric or empty remainders as-is),
so it is not equivalent to them. -/
theorem formatCallTitle_home_eq_reportCard (filename : String) :
    formatCallTitleHome filename = formatCallTitleReportCard filename := rfl

/-- C8: stripping `"20240101_120000_callrecording.wav"` yields
`"callrecording"`, and the all-numeric base `"482913"` yields the
truncated placeholder `"Call Recording — 482913..."`, for the
home page's and the `ReportCard` component's `formatCallTitle`. -/
theorem formatCallTitle_examples :
    formatCallTitleHome "20240101_120000_callrecording.wav" = "callrecording" ∧
    formatCallTitleHome "482913" = "Call Recording — 482913..." ∧
    formatCallTitleReportCard "20240101_120000_callrecording.wav"
      = "callrecording" ∧
    formatCallTitleReportCard "482913" = "Call Recording — 482913..." := by
  refine ⟨by decide, by decide, by decide, by decide⟩

/-- C4: with empty or whitespace-only effective input after
trimming, or while a request is outstanding, `handleSend` leaves
the whole chat state unchanged. -/
theorem handleSend_guard_noop (s : ChatState) (question : Option String)
    (result : Fetch (Option QueryResponse))
    (h : jsTrim (effectiveQuery question s) = "" ∨ s.loading = true) :
    handleSend question result s = s := by
  unfold handleSend
  rcases h with h | h <;> simp [h]

/-- C4 witness: whitespace-only input box, no outstanding
request. -/
theorem handleSend_guard_noop_witness :
    handleSend none (.error ())
        { messages := [], input := "   ", loading := false } =
      { messages := [], input := "   ", loading := false } :=
  handleSend_guard_noop
    { messages := [], input := "   ", loading := false } none (.error ())
    (Or.inl (by decide))

/-- C2: false as stated. On the home page a rejected initial
fetch leaves every component state variable unchanged except the
loading flag: the component has no error state variable to set
(its `catch` only logs), so the claim's "sets an error flag" fails
at this concrete input. -/
theorem home_failure_sets_no_error_flag :
    homeLoadData homeInit (.error ()) (.error ()) =
      { homeInit with loading := false } := rfl

/-- C2 (amended): on both pages the two initial fetches are
combined with `Promise.all`, so the raw-result variables are
updated together and only when both fetches succeed; on any
rejection the previously stored data is left unchanged and
loading stops; the analytics page additionally sets its error
message, while the home page has no error flag and only logs. -/
theorem initial_fetch_atomicity :
    (∀ (s : HomeState) (rd : List Report) (sd : AnalyticsSummary),
        homeLoadData s (.ok rd) (.ok sd) =
          { s with reports := rd, summary := some sd, loading := false }) ∧
    (∀ (s : HomeState) (m : Fetch AnalyticsSummary),
        homeLoadData s (.error ()) m = { s with loading := false }) ∧
    (∀ (s : HomeState) (rd : List Report),
        homeLoadData s (.ok rd) (.error ()) = { s with loading := false }) ∧
    (∀ (s : AnalyticsState) (md : Option AnalyticsSummary)
        (td : Option AnalyticsTrends),
        analyticsLoadData s (.ok md) (.ok td) =
          { s with summary := md, trends := td, loading := false }) ∧
    (∀ (s : AnalyticsState) (t : Fetch (Option AnalyticsTrends)),
        analyticsLoadData s (.error ()) t =
          { s with error := some "Failed to load analytics data",
                   loading := false }) ∧
    (∀ (s : AnalyticsState) (md : Option AnalyticsSummary),
        analyticsLoadData s (.ok md) (.error ()) =
          { s with error := some "Failed to load analytics data",
                   loading := false }) := by
  refine ⟨fun s rd sd => rfl, fun s m => ?_, fun s rd => rfl,
          fun s md td => rfl, fun s t => ?_, fun s md => rfl⟩ <;>
    first
      | cases m <;> rfl
      | cases t <;> rfl

/-- C3: false as stated. A submission can succeed (the promise
resolves) while the response's `answer` is empty; the appended
assistant turn is then the canned inability message, not the
response answer. Concrete input: input box `"hi"`, response
`{ answer := "" }`. -/
theorem chat_success_empty_answer_fallback :
    (handleSend none
        (.ok (some { answer := some "", data_context := none }))
        { messages := [], input := "hi", loading := false }).messages =
      [{ role := .user, content := "hi", dataContext := none },
       { role := .bot, content := cannedNoAnswer, dataContext := none }] ∧
    cannedNoAnswer ≠ "" := by
  refine ⟨by decide, by decide⟩

/-- C3 (amended): every accepted chat submission appends exactly
one user turn followed by exactly one assistant turn and resets
loading and the input box; the assistant content is the response
answer when the response carries a non-empty answer, the canned
inability message when the request succeeds with a missing or
empty answer, and the canned apology on rejection. -/
theorem chat_accepted_turns (s : ChatState) (question : Option String)
    (result : Fetch (Option QueryResponse))
    (hq : jsTrim (effectiveQuery question s) ≠ "") (hl : s.loading = false) :
    handleSend question result s =
      { messages := s.messages ++
          [{ role := .user, content := jsTrim (effectiveQuery question s),
             dataContext := none },
           botTurn result],
        input := "", loading := false } ∧
    (∀ (resp : QueryResponse) (a : String),
        result = .ok (some resp) → resp.answer = some a → a ≠ "" →
        (botTurn result).content = a) ∧
    (∀ response, result = .ok response →
        (response.bind (fun r => r.answer) = none ∨
          response.bind (fun r => r.answer) = some "") →
        (botTurn result).content = cannedNoAnswer) ∧
    (result = .error () → (botTurn result).content = cannedApology) := by
  refine ⟨?_, ?_, ?_, ?_⟩
  · unfold handleSend
    simp [hq, hl]
  · rintro resp a rfl ha hne
    simp [botTurn, ha, hne]
  · rintro response rfl h
    match response with
    | none => rfl
    | some resp =>
        simp only [Option.some_bind] at h
        rcases h with h | h <;> simp [botTurn, h]
  · rintro rfl
    rfl

/-- C3 (amended) witness: input box `"hello"`, idle, successful
response with answer `"Fine."`. -/
theorem chat_accepted_turns_witness :
    handleSend none (.ok (some { answer := some "Fine.", data_context := none }))
        { messages := [], input := "hello", loading := false } =
      { messages :=
          [{ role := .user, content := "hello", dataContext := none },
           { role := .bot, content := "Fine.", dataContext := none }],
        input := "", loading := false } := by
  have h :=
    chat_accepted_turns { messages := [], input := "hello", loading := false }
      none (.ok (some { answer := some "Fine.", data_context := none }))
      (by decide) rfl
  exact h.1.trans (by decide)

/-- C6: false as stated. The home page renders no error state at
all: after its initial fetch rejects it shows the ordinary empty
state, exactly as for an empty report list. -/
theorem home_rejected_fetch_shows_empty_state :
    homeBody (homeLoadData homeInit (.error ()) (.error ())) =
      HomeBody.emptyState := rfl

/-- C6 (amended): after the initial load, the report detail page
shows its error state iff its fetch rejected or resolved with a
missing payload, the analytics page iff either fetch rejected or
the summary payload is missing, and the reports list page iff its
fetch rejected; the home page has no error state and shows none
even when its fetch rejects. -/
theorem pages_error_iff :
    (∀ r : Fetch (Option Report),
        detailShowsError (loadReport detailInit r) = true ↔
          (r = .error () ∨ r = .ok none)) ∧
    (∀ (m : Fetch (Option AnalyticsSummary))
        (t : Fetch (Option AnalyticsTrends)),
        analyticsShowsError (analyticsLoadData analyticsInit m t) = true ↔
          (m = .error () ∨ t = .error () ∨ m = .ok none)) ∧
    (∀ r : Fetch (List Report),
        reportsShowsError (loadReports reportsInit r) = true ↔
          r = .error ()) := by
  refine ⟨?_, ?_, ?_⟩
  · rintro (⟨⟩ | _ | _) <;>
      simp [loadReport, detailShowsError, detailInit]
  · rintro (⟨⟩ | (_ | _)) (⟨⟩ | _) <;>
      simp [analyticsLoadData, analyticsShowsError, analyticsInit]
  · rintro (⟨⟩ | _) <;>
      simp [loadReports, reportsShowsError, reportsInit]

/-- C9: the home dashboard's `AVG. RISK SCORE` card displays
`Math.round(100 - avg_risk_score)` — the inverted value — and its
subtitle is `riskLabel` of that inverted value, so a higher
backend average risk score yields a (weakly) lower displayed
percentage and a (weakly) lower-risk subtitle. -/
theorem home_avg_risk_inverted (s₁ s₂ : AnalyticsSummary)
    (h : s₁.avg_risk_score ≤ s₂.avg_risk_score) :
    homeAvgRiskScore (some s₁) = jsRound (100 - s₁.avg_risk_score) ∧
    homeAvgRiskScore (some s₂) ≤ homeAvgRiskScore (some s₁) ∧
    riskLabelRank (riskLabel (homeAvgRiskScore (some s₂))) ≤
      riskLabelRank (riskLabel (homeAvgRiskScore (some s₁))) := by
  have hmono : homeAvgRiskScore (some s₂) ≤ homeAvgRiskScore (some s₁) := by
    unfold homeAvgRiskScore jsRound
    apply Int.floor_le_floor
    linarith
  exact ⟨rfl, hmono, riskLabelRank_mono hmono⟩

/-- C9 witness: averages 20 and 80. -/
theorem home_avg_risk_inverted_witness :
    homeAvgRiskScore
        (some { report_count := 2, avg_compliance_score := 90,
                avg_risk_score := 80, total_violations := 1 }) ≤
      homeAvgRiskScore
        (some { report_count := 2, avg_compliance_score := 90,
                avg_risk_score := 20, total_violations := 1 }) :=
  (home_avg_risk_inverted
      { report_count := 2, avg_compliance_score := 90,
        avg_risk_score := 20, total_violations := 1 }
      { report_count := 2, avg_compliance_score := 90,
        avg_risk_score := 80, total_violations := 1 }
      (by norm_num)).2.1

/-- C10: when the caller-history fetch rejects, the stored
history is left unchanged; starting from an empty history the
resulting state — and hence the rendered panel, which shows
`No previous calls found` — is literally identical to the state
after a successful fetch of an empty history, so a failed lookup
is indistinguishable from a caller with no prior calls (the
feature has no error flag: `DetailState` carries none for it and
`HistoryPanel` has no error constructor). -/
theorem caller_history_failure_indistinguishable (s : DetailState) (r : Report)
    (h : s.report = some r) :
    (handleShowCallerHistory s (.error ())).callerHistory = s.callerHistory ∧
    (s.callerHistory = [] →
      handleShowCallerHistory s (.error ()) =
        handleShowCallerHistory s (.ok []) ∧
      historyPanel (handleShowCallerHistory s (.error ())) =
        HistoryPanel.noPreviousCalls) := by
  unfold handleShowCallerHistory
  rw [h]
  refine ⟨rfl, fun hempty => ⟨?_, ?_⟩⟩
  · simp [hempty]
  · simp [historyPanel, hempty]

/-- C10 witness: a loaded report, empty history, rejected
caller-history fetch. -/
theorem caller_history_failure_witness :
    historyPanel
        (handleShowCallerHistory
          { detailInit with
              report := some
                { id := some "r1", filename := some "f.wav",
                  timestamp := none, risk_score := some 10,
                  risk_level := none, violations := none },
              loading := false }
          (.error ())) = HistoryPanel.noPreviousCalls :=
  (((caller_history_failure_indistinguishable
      { detailInit with
          report := some
            { id := some "r1", filename := some "f.wav",
              timestamp := none, risk_score := some 10,
              risk_level := none, violations := none },
          loading := false }
      { id := some "r1", filename := some "f.wav", timestamp := none,
        risk_score := some 10, risk_level := none, violations := none }
      rfl).2) rfl).2

/-- Helper: an event after `t` is ignored. -/
theorem laterEvent_skip (t : ℕ) (acc : Option (ℕ × Option String))
    (e : ℕ × Option String) (h : ¬ e.1 ≤ t) : laterEvent t acc e = acc := by
  unfold laterEvent
  simp [h]

/-- Helper: the first event at or before `t` is held. -/
theorem laterEvent_first (t : ℕ) (e : ℕ × Option String) (h : e.1 ≤ t) :
    laterEvent t none e = some e := by
  unfold laterEvent
  simp [h]

/-- Helper: an event at or before `t` that is at least as late as
the held one replaces it. -/
theorem laterEvent_take (t : ℕ) (a e : ℕ × Option String) (h : e.1 ≤ t)
    (h2 : a.1 ≤ e.1) : laterEvent t (some a) e = some e := by
  unfold laterEvent
  simp [h, h2]

/-- C5: false as stated. With a first export attempt settling at
t = 100 and a second attempt starting at t = 3500 and settling at
t = 3900, the second attempt's message is visible at t = 3999 but
already cleared at t = 4100 — wiped by the first attempt's
uncancelled timer at t = 4100 − 100 = 4000 ms, far before its own
timer at 3900 + 4000 = 7900 and with no newer attempt replacing
it. -/
theorem export_msg_cleared_by_stale_timer :
    exportMsgAt [⟨0, 100, "CSV downloaded successfully!"⟩,
                 ⟨3500, 3900, "Export failed"⟩] 3999 = some "Export failed" ∧
    exportMsgAt [⟨0, 100, "CSV downloaded successfully!"⟩,
                 ⟨3500, 3900, "Export failed"⟩] 4100 = none ∧
    4100 < 3900 + 4000 := by
  refine ⟨by decide, by decide, by decide⟩

/-- C5 (amended): an export message is cleared exactly 4000 ms
after being set provided no event of another attempt — a start or
an uncancelled 4000 ms timer — falls inside its display window;
since timers are never cancelled, a message set while an earlier
attempt's timer is still pending can be cleared early by that
timer. For two attempts whose windows do not overlap, each
message shows from its settle time until exactly 4000 ms later. -/
theorem export_msg_timer (a₁ a₂ : ExportAttempt)
    (h₁ : a₁.start ≤ a₁.done) (h₂ : a₁.done + 4000 < a₂.start)
    (h₃ : a₂.start ≤ a₂.done) :
    (∀ t, a₁.done ≤ t → t < a₁.done + 4000 →
        exportMsgAt [a₁, a₂] t = some a₁.msg) ∧
    (∀ t, a₁.done + 4000 ≤ t → t < a₂.start →
        exportMsgAt [a₁, a₂] t = none) ∧
    (∀ t, a₂.done ≤ t → t < a₂.done + 4000 →
        exportMsgAt [a₁, a₂] t = some a₂.msg) ∧
    (∀ t, a₂.done + 4000 ≤ t → exportMsgAt [a₁, a₂] t = none) := by
  refine ⟨?_, ?_, ?_, ?_⟩
  · intro t ht1 ht2
    simp only [exportMsgAt, attemptEvents, List.map_cons, List.map_nil,
      List.flatten_cons, List.flatten_nil, List.cons_append, List.nil_append,
      List.append_nil, lastEventAt, List.foldl_cons, List.foldl_nil]
    rw [laterEvent_first t (a₁.start, none) (show a₁.start ≤ t by omega),
        laterEvent_take t (a₁.start, none) (a₁.done, some a₁.msg)
          (show a₁.done ≤ t by omega) (show a₁.start ≤ a₁.done by omega),
        laterEvent_skip t _ (a₁.done + 4000, none)
          (show ¬ a₁.done + 4000 ≤ t by omega),
        laterEvent_skip t _ (a₂.start, none) (show ¬ a₂.start ≤ t by omega),
        laterEvent_skip t _ (a₂.done, some a₂.msg)
          (show ¬ a₂.done ≤ t by omega),
        laterEvent_skip t _ (a₂.done + 4000, none)
          (show ¬ a₂.done + 4000 ≤ t by omega)]
  · intro t ht1 ht2
    simp only [exportMsgAt, attemptEvents, List.map_cons, List.map_nil,
      List.flatten_cons, List.flatten_nil, List.cons_append, List.nil_append,
      List.append_nil, lastEventAt, List.foldl_cons, List.foldl_nil]
    rw [laterEvent_first t (a₁.start, none) (show a₁.start ≤ t by omega),
        laterEvent_take t (a₁.start, none) (a₁.done, some a₁.msg)
          (show a₁.done ≤ t by omega) (show a₁.start ≤ a₁.done by omega),
        laterEvent_take t (a₁.done, some a₁.msg) (a₁.done + 4000, none)
          (show a₁.done + 4000 ≤ t by omega)
          (show a₁.done ≤ a₁.done + 4000 by omega),
        laterEvent_skip t _ (a₂.start, none) (show ¬ a₂.start ≤ t by omega),
        laterEvent_skip t _ (a₂.done, some a₂.msg)
          (show ¬ a₂.done ≤ t by omega),
        laterEvent_skip t _ (a₂.done + 4000, none)
          (show ¬ a₂.done + 4000 ≤ t by omega)]
  · intro t ht1 ht2
    simp only [exportMsgAt, attemptEvents, List.map_cons, List.map_nil,
      List.flatten_cons, List.flatten_nil, List.cons_append, List.nil_append,
      List.append_nil, lastEventAt, List.foldl_cons, List.foldl_nil]
    rw [laterEvent_first t (a₁.start, none) (show a₁.start ≤ t by omega),
        laterEvent_take t (a₁.start, none) (a₁.done, some a₁.msg)
          (show a₁.done ≤ t by omega) (show a₁.start ≤ a₁.done by omega),
        laterEvent_take t (a₁.done, some a₁.msg) (a₁.done + 4000, none)
          (show a₁.done + 4000 ≤ t by omega)
          (show a₁.done ≤ a₁.done + 4000 by omega),
        laterEvent_take t (a₁.done + 4000, none) (a₂.start, none)
          (show a₂.start ≤ t by omega)
          (show a₁.done + 4000 ≤ a₂.start by omega),
        laterEvent_take t (a₂.start, none) (a₂.done, some a₂.msg)
          (show a₂.done ≤ t by omega) (show a₂.start ≤ a₂.done by omega),
        laterEvent_skip t _ (a₂.done + 4000, none)
          (show ¬ a₂.done + 4000 ≤ t by omega)]
  · intro t ht1
    simp only [exportMsgAt, attemptEvents, List.map_cons, List.map_nil,
      List.flatten_cons, List.flatten_nil, List.cons_append, List.nil_append,
      List.append_nil, lastEventAt, List.foldl_cons, List.foldl_nil]
    rw [laterEvent_first t (a₁.start, none) (show a₁.start ≤ t by omega),
        laterEvent_take t (a₁.start, none) (a₁.done, some a₁.msg)
          (show a₁.done ≤ t by omega) (show a₁.start ≤ a₁.done by omega),
        laterEvent_take t (a₁.done, some a₁.msg) (a₁.done + 4000, none)
          (show a₁.done + 4000 ≤ t by omega)
          (show a₁.done ≤ a₁.done + 4000 by omega),
        laterEvent_take t (a₁.done + 4000, none) (a₂.start, none)
          (show a₂.start ≤ t by omega)
          (show a₁.done + 4000 ≤ a₂.start by omega),
        laterEvent_take t (a₂.start, none) (a₂.done, some a₂.msg)
          (show a₂.done ≤ t by omega) (show a₂.start ≤ a₂.done by omega),
        laterEvent_take t (a₂.done, some a₂.msg) (a₂.done + 4000, none)
          (show a₂.done + 4000 ≤ t by omega)
          (show a₂.done ≤ a₂.done + 4000 by omega)]

/-- C5 (amended) witness: attempts settling at 100 and 5100,
windows disjoint. -/
theorem export_msg_timer_witness :
    exportMsgAt [⟨0, 100, "CSV downloaded successfully!"⟩,
                 ⟨5000, 5100, "Export failed"⟩] 5100 = some "Export failed" ∧
    exportMsgAt [⟨0, 100, "CSV downloaded successfully!"⟩,
                 ⟨5000, 5100, "Export failed"⟩] 9100 = none := by
  have h :=
    export_msg_timer ⟨0, 100, "CSV downloaded successfully!"⟩
      ⟨5000, 5100, "Export failed"⟩ (by decide) (by decide) (by decide)
  exact ⟨h.2.2.1 5100 (by decide) (by decide), h.2.2.2 9100 (by decide)⟩

end Dashboard
